import Mathlib

/-!
Verification of the SugarHealthTracker core against its specification.

The development shallowly embeds the normalization, utility and persistence
logic of the repository (src/nutrition_api.py, src/utils.py, src/database.py):

* Python floats are modelled as rationals (ℚ); no rounding occurs on any of
  the code paths treated here, so the arithmetic is exact.
* Python dictionaries handed across module boundaries are modelled as
  structures whose optional keys are `Option` fields; `dict.get k d` becomes
  `Option.getD`.
* The SQLAlchemy-backed store of src/database.py is modelled as an explicit
  `DB` state record holding the four tables as lists, threaded through the
  operations; autoincrement primary keys become explicit counters.
* `datetime.now()` is modelled by passing the current date string explicitly.
* A Python expression that raises (float division by zero) is embedded with
  an `Except` result.
-/

/-- Boolean test that the list `p` occurs contiguously inside `s`
(the model of Python's `sub in str` substring operator, after `toList`). -/
def strContainsAux (p : List Char) : List Char → Bool
  | [] => p.isEmpty
  | c :: rest => p.isPrefixOf (c :: rest) || strContainsAux p rest

/-- Python's substring test `pat in s`. -/
def strContains (s pat : String) : Bool :=
  strContainsAux pat.toList s.toList

/-- Python's `str.lower()`: lowercase every character. -/
def strToLower (s : String) : String :=
  ⟨s.data.map Char.toLower⟩

/-! ## src/utils.py -/

/-- Embeds `sugar_to_teaspoons` from src/utils.py. -/
def sugar_to_teaspoons (sugar_grams : ℚ) : ℚ :=
  sugar_grams / 4

/-- Embeds `teaspoons_to_sugar` from src/utils.py. -/
def teaspoons_to_sugar (teaspoons : ℚ) : ℚ :=
  teaspoons * 4

/-- Embeds `calculate_daily_sugar_percentage` from src/utils.py.
The body is the single Python statement
`return (sugar_content / daily_limit) * 100`; Python float division raises
an uncaught `ZeroDivisionError` when `daily_limit` is zero, which the
embedding records as an `Except.error`. -/
def calculate_daily_sugar_percentage (sugar_content : ℚ) (daily_limit : ℚ) : Except String ℚ :=
  if daily_limit = 0 then Except.error "ZeroDivisionError"
  else Except.ok (sugar_content / daily_limit * 100)

/-! ## src/nutrition_api.py: Provider B (OpenFoodFacts) -/

/-- Raw OpenFoodFacts product object handed to `_extract_openfoodfacts_data`.
Each field models the corresponding dictionary key; `none` stands for an
absent key.  `nutriments` is the per-100g nutrient dictionary, an association
list from key to value, where an entry's `none` value models JSON `null`. -/
structure OFFProduct where
  product_name : Option String
  brands : Option String
  code : Option String
  categories : Option String
  nutriments : Option (List (String × Option ℚ))
deriving DecidableEq

/-- The dictionary produced by `_extract_openfoodfacts_data`. -/
structure OFFFoodInfo where
  name : String
  description : String
  fdc_id : String
  data_type : String
  sugar_g : ℚ
  calories : ℚ
  carbs_g : ℚ
  protein_g : ℚ
  fat_g : ℚ
  fiber_g : ℚ
  sodium_mg : ℚ
deriving DecidableEq

/-- Embeds the Python idiom `nutriments.get(key, 0) or 0`: an absent key or a
`null` (or zero) value yields 0, otherwise the stored number. -/
def dictGetOr (nutriments : List (String × Option ℚ)) (key : String) : ℚ :=
  match nutriments.lookup key with
  | some (some v) => v
  | some none => 0
  | none => 0

/-- Embeds `NutritionAPI._extract_openfoodfacts_data` from src/nutrition_api.py.
The `try`/`except` wrapper is unreachable on the typed model, so the record is
returned directly. -/
def extract_openfoodfacts_data (product_data : OFFProduct) : OFFFoodInfo :=
  let nutriments := product_data.nutriments.getD []
  let base_description := product_data.brands.getD ""
  let description :=
    match product_data.brands with
    | some b =>
        if b ≠ "" then
          b ++ " - " ++
            (match product_data.categories with
             | some c => if c ≠ "" then (c.splitOn ",").headD "" else ""
             | none => "")
        else base_description
    | none => base_description
  { name := product_data.product_name.getD "Unknown Product"
    description := description
    fdc_id := product_data.code.getD ""
    data_type := "OpenFoodFacts"
    sugar_g := dictGetOr nutriments "sugars_100g"
    calories := dictGetOr nutriments "energy-kcal_100g"
    carbs_g := dictGetOr nutriments "carbohydrates_100g"
    protein_g := dictGetOr nutriments "proteins_100g"
    fat_g := dictGetOr nutriments "fat_100g"
    fiber_g := dictGetOr nutriments "fiber_100g"
    sodium_mg := dictGetOr nutriments "sodium_100g" * 1000 }

/-! ## src/nutrition_api.py: Provider A (USDA) -/

/-- One entry of the `foodNutrients` list of a raw USDA payload. -/
structure USDANutrient where
  nutrientId : Option Int
  nutrientName : Option String
  value : Option ℚ
deriving DecidableEq

/-- Raw USDA food payload handed to `_extract_nutrition_data`. -/
structure USDAFood where
  description : Option String
  additionalDescriptions : Option String
  fdcId : Option Int
  dataType : Option String
  foodNutrients : Option (List USDANutrient)
deriving DecidableEq

/-- The dictionary produced by `_extract_nutrition_data`. -/
structure USDAFoodInfo where
  name : String
  description : String
  fdc_id : Option Int
  data_type : String
  sugar_g : ℚ
  calories : ℚ
  carbs_g : ℚ
  protein_g : ℚ
  fat_g : ℚ
  fiber_g : ℚ
  sodium_mg : ℚ
deriving DecidableEq

/-- The body of the `for nutrient in nutrients:` loop of
`_extract_nutrition_data`: one `if`/`elif` chain updating the accumulated
`food_info` dictionary from one nutrient entry. -/
def nutrientStep (food_info : USDAFoodInfo) (nutrient : USDANutrient) : USDAFoodInfo :=
  let nutrient_id := nutrient.nutrientId
  let nutrient_name := strToLower (nutrient.nutrientName.getD "")
  let amount := nutrient.value.getD 0
  if nutrient_id = some 2000 then { food_info with sugar_g := amount }
  else if nutrient_id = some 1008 then { food_info with calories := amount }
  else if nutrient_id = some 1005 then { food_info with carbs_g := amount }
  else if nutrient_id = some 1003 then { food_info with protein_g := amount }
  else if nutrient_id = some 1004 then { food_info with fat_g := amount }
  else if nutrient_id = some 1079 then { food_info with fiber_g := amount }
  else if nutrient_id = some 1093 then { food_info with sodium_mg := amount }
  else if strContains nutrient_name "sugar" && strContains nutrient_name "total" then
    (if food_info.sugar_g = 0 then { food_info with sugar_g := amount } else food_info)
  else if strContains nutrient_name "energy" || strContains nutrient_name "calorie" then
    (if food_info.calories = 0 then { food_info with calories := amount } else food_info)
  else if strContains nutrient_name "carbohydrate" && strContains nutrient_name "total" then
    (if food_info.carbs_g = 0 then { food_info with carbs_g := amount } else food_info)
  else if strContains nutrient_name "protein" then
    (if food_info.protein_g = 0 then { food_info with protein_g := amount } else food_info)
  else if strContains nutrient_name "fat" &&
      (strContains nutrient_name "total" || strContains nutrient_name "lipid") then
    (if food_info.fat_g = 0 then { food_info with fat_g := amount } else food_info)
  else if strContains nutrient_name "fiber" then
    (if food_info.fiber_g = 0 then { food_info with fiber_g := amount } else food_info)
  else if strContains nutrient_name "sodium" then
    (if food_info.sodium_mg = 0 then { food_info with sodium_mg := amount } else food_info)
  else food_info

/-- Embeds `NutritionAPI._extract_nutrition_data` from src/nutrition_api.py:
build the default dictionary, then fold the loop body over `foodNutrients`. -/
def extract_nutrition_data (food_data : USDAFood) : USDAFoodInfo :=
  let init : USDAFoodInfo :=
    { name := food_data.description.getD "Unknown Food"
      description := food_data.additionalDescriptions.getD ""
      fdc_id := food_data.fdcId
      data_type := food_data.dataType.getD ""
      sugar_g := 0
      calories := 0
      carbs_g := 0
      protein_g := 0
      fat_g := 0
      fiber_g := 0
      sodium_mg := 0 }
  (food_data.foodNutrients.getD []).foldl nutrientStep init

/-! ## src/database.py: state model -/

/-- A dictionary of food data handed to the persistence functions
(`save_food_item`, `add_to_daily_tracker`, `add_to_favorites`); it carries the
keys those functions read.  The normalizer always produces all of them, so the
fields are total here; `fdc_id` is kept as the string it is persisted as. -/
structure FoodData where
  name : String
  description : String
  sugar_g : ℚ
  calories : ℚ
  carbs_g : ℚ
  protein_g : ℚ
  fat_g : ℚ
  fiber_g : ℚ
  sodium_mg : ℚ
  data_type : String
  fdc_id : String
deriving DecidableEq

/-- A row of the `food_items` table. -/
structure FoodItem where
  id : Nat
  name : String
  description : String
  sugar_g : ℚ
  calories : ℚ
  carbs_g : ℚ
  protein_g : ℚ
  fat_g : ℚ
  fiber_g : ℚ
  sodium_mg : ℚ
  data_source : String
  external_id : String
deriving DecidableEq

/-- A row of the `daily_tracker` table. -/
structure TrackerEntry where
  id : Nat
  user_id : Int
  food_item_id : Nat
  food_name : String
  portion_g : ℚ
  sugar_g : ℚ
  calories : ℚ
  date : String
deriving DecidableEq

/-- A row of the `favorite_foods` table; the `food_data` JSON blob is kept as
the record it serializes. -/
structure Favorite where
  id : Nat
  user_id : Int
  food_item_id : Nat
  food_name : String
  sugar_g : ℚ
  calories : ℚ
  food_data : FoodData
deriving DecidableEq

/-- A row of the `sugar_insights` table. -/
structure Insight where
  id : Nat
  user_id : Int
  date : String
  total_sugar_g : ℚ
  total_calories : ℚ
  food_count : Nat
  exceeded_limit : Bool
deriving DecidableEq

/-- The relational store: the four tables touched by the embedded operations,
plus the autoincrement counters for their primary keys. -/
structure DB where
  food_items : List FoodItem
  daily_tracker : List TrackerEntry
  favorite_foods : List Favorite
  sugar_insights : List Insight
  next_food_id : Nat
  next_tracker_id : Nat
  next_favorite_id : Nat
  next_insight_id : Nat
deriving DecidableEq

/-- The empty store. -/
def emptyDB : DB :=
  { food_items := []
    daily_tracker := []
    favorite_foods := []
    sugar_insights := []
    next_food_id := 1
    next_tracker_id := 1
    next_favorite_id := 1
    next_insight_id := 1 }

/-- Replace the first element satisfying `p` by its image under `f`
(the model of SQLAlchemy's "query `.first()`, then mutate the mapped object
in place"). -/
def replaceFirst (p : α → Bool) (f : α → α) : List α → List α
  | [] => []
  | x :: xs => if p x then f x :: xs else x :: replaceFirst p f xs

/-! ## src/database.py: operations -/

/-- Embeds `save_food_item` from src/database.py: return the id of an
existing row with the same `(name, external_id)` pair, otherwise insert a
fresh row and return its id. -/
def save_food_item (food_data : FoodData) (db : DB) : Nat × DB :=
  match db.food_items.find?
      (fun fi => fi.name == food_data.name && fi.external_id == food_data.fdc_id) with
  | some existing_food => (existing_food.id, db)
  | none =>
      let food_item : FoodItem :=
        { id := db.next_food_id
          name := food_data.name
          description := food_data.description
          sugar_g := food_data.sugar_g
          calories := food_data.calories
          carbs_g := food_data.carbs_g
          protein_g := food_data.protein_g
          fat_g := food_data.fat_g
          fiber_g := food_data.fiber_g
          sodium_mg := food_data.sodium_mg
          data_source := food_data.data_type
          external_id := food_data.fdc_id }
      (db.next_food_id,
       { db with
           food_items := db.food_items ++ [food_item]
           next_food_id := db.next_food_id + 1 })

/-- Embeds `add_to_daily_tracker` from src/database.py; `today` stands for
`datetime.now().strftime('%Y-%m-%d')`.  The stored `sugar_g`/`calories` are
the creation-time scaled snapshot `canonical value / 100 * portion`. -/
def add_to_daily_tracker (food_data : FoodData) (portion_g : ℚ) (user_id : Int)
    (today : String) (db : DB) : Bool × DB :=
  let fs := save_food_item food_data db
  let actual_sugar := food_data.sugar_g / 100 * portion_g
  let actual_calories := food_data.calories / 100 * portion_g
  let tracker_entry : TrackerEntry :=
    { id := fs.2.next_tracker_id
      user_id := user_id
      food_item_id := fs.1
      food_name := food_data.name
      portion_g := portion_g
      sugar_g := actual_sugar
      calories := actual_calories
      date := today }
  (true,
   { fs.2 with
       daily_tracker := fs.2.daily_tracker ++ [tracker_entry]
       next_tracker_id := fs.2.next_tracker_id + 1 })

/-- Embeds `clear_daily_tracker` from src/database.py: delete every tracker
row of that user and date. -/
def clear_daily_tracker (date : String) (user_id : Int) (db : DB) : Bool × DB :=
  (true,
   { db with
       daily_tracker :=
         db.daily_tracker.filter (fun e => !(e.user_id == user_id && e.date == date)) })

/-- Embeds `add_to_favorites` from src/database.py: report `false` on a
duplicate `(user_id, food_name)` pair before any write, otherwise save the
food item and append the favorite row. -/
def add_to_favorites (food_data : FoodData) (user_id : Int) (db : DB) : Bool × DB :=
  match db.favorite_foods.find?
      (fun f => f.user_id == user_id && f.food_name == food_data.name) with
  | some _ => (false, db)
  | none =>
      let fs := save_food_item food_data db
      let favorite : Favorite :=
        { id := fs.2.next_favorite_id
          user_id := user_id
          food_item_id := fs.1
          food_name := food_data.name
          sugar_g := food_data.sugar_g
          calories := food_data.calories
          food_data := food_data }
      (true,
       { fs.2 with
           favorite_foods := fs.2.favorite_foods ++ [favorite]
           next_favorite_id := fs.2.next_favorite_id + 1 })

/-- The row predicate used by `save_daily_insight` to look up the existing
insight of a `(user_id, date)` key. -/
def insightKey (user_id : Int) (date : String) (i : Insight) : Bool :=
  i.user_id == user_id && i.date == date

/-- The in-place update `save_daily_insight` performs on an existing insight
row: overwrite the four aggregate columns, keep id, user and date. -/
def insightUpdate (total_sugar total_calories : ℚ) (food_count : Nat)
    (exceeded_limit : Bool) (row : Insight) : Insight :=
  { row with
      total_sugar_g := total_sugar
      total_calories := total_calories
      food_count := food_count
      exceeded_limit := exceeded_limit }

/-- The tracker-row query shared by `get_daily_tracker` and
`save_daily_insight`: all `daily_tracker` rows of one `(user_id, date)`. -/
def trackerEntriesFor (db : DB) (user_id : Int) (date : String) : List TrackerEntry :=
  db.daily_tracker.filter (fun e => e.user_id == user_id && e.date == date)

/-- Embeds `save_daily_insight` from src/database.py: read the tracker rows
of `(user_id, date)`; with no rows return `False` and change nothing;
otherwise compute the totals and upsert the single insight row of that key. -/
def save_daily_insight (date : String) (user_id : Int) (db : DB) : Bool × DB :=
  let entries := trackerEntriesFor db user_id date
  if entries = [] then (false, db)
  else
    let total_sugar := (entries.map TrackerEntry.sugar_g).sum
    let total_calories := (entries.map TrackerEntry.calories).sum
    let food_count := entries.length
    let exceeded_limit := decide ((25 : ℚ) < total_sugar)
    match db.sugar_insights.find? (insightKey user_id date) with
    | some _ =>
        (true,
         { db with
             sugar_insights :=
               replaceFirst (insightKey user_id date)
                 (insightUpdate total_sugar total_calories food_count exceeded_limit)
                 db.sugar_insights })
    | none =>
        (true,
         { db with
             sugar_insights :=
               db.sugar_insights ++
                 [{ id := db.next_insight_id
                    user_id := user_id
                    date := date
                    total_sugar_g := total_sugar
                    total_calories := total_calories
                    food_count := food_count
                    exceeded_limit := exceeded_limit }]
             next_insight_id := db.next_insight_id + 1 })

/-- Embeds `get_weekly_insights` from src/database.py: the user's insight
rows ordered by date descending, limited to `days` rows. -/
def get_weekly_insights (user_id : Int) (days : Nat) (db : DB) : List Insight :=
  (((db.sugar_insights.filter (fun i => i.user_id == user_id)).mergeSort
      (fun a b => decide (b.date ≤ a.date))).take days)

/-! ## Derived definitions used by the verification -/

/-- The set of numeric nutrient identifiers handled by the primary mapping
table of `_extract_nutrition_data`. -/
def isMappedId (i : Option Int) : Bool :=
  decide (i = some 2000 ∨ i = some 1008 ∨ i = some 1005 ∨ i = some 1003 ∨
    i = some 1004 ∨ i = some 1079 ∨ i = some 1093)

/-- The name-based fallback condition of the sugar field: the lowercased
nutrient name contains both "sugar" and "total". -/
def sugarNameMatch (n : USDANutrient) : Bool :=
  strContains (strToLower (n.nutrientName.getD "")) "sugar" &&
  strContains (strToLower (n.nutrientName.getD "")) "total"

/-- A nutrient entry that reaches the sugar name-based branch of the loop:
its identifier matches none of the seven mapped identifiers and its name
satisfies the sugar name condition. -/
def freeSugarNameMatch (n : USDANutrient) : Bool :=
  !(isMappedId n.nutrientId) && sugarNameMatch n

/-- The insight row `save_daily_insight` freshly inserts for `(user_id, date)`
when none exists. -/
def newInsightRow (db : DB) (user_id : Int) (date : String) : Insight :=
  { id := db.next_insight_id
    user_id := user_id
    date := date
    total_sugar_g := ((trackerEntriesFor db user_id date).map TrackerEntry.sugar_g).sum
    total_calories := ((trackerEntriesFor db user_id date).map TrackerEntry.calories).sum
    food_count := (trackerEntriesFor db user_id date).length
    exceeded_limit :=
      decide ((25 : ℚ) < ((trackerEntriesFor db user_id date).map TrackerEntry.sugar_g).sum) }

/-- The in-place update `save_daily_insight` performs for `(user_id, date)`,
with the totals computed from the current tracker rows. -/
def insightUpdateFor (db : DB) (user_id : Int) (date : String) : Insight → Insight :=
  insightUpdate (((trackerEntriesFor db user_id date).map TrackerEntry.sugar_g).sum)
    (((trackerEntriesFor db user_id date).map TrackerEntry.calories).sum)
    ((trackerEntriesFor db user_id date).length)
    (decide ((25 : ℚ) < ((trackerEntriesFor db user_id date).map TrackerEntry.sugar_g).sum))

/-- Number of favorite rows of one `(user_id, food_name)` key, the quantity
governed by the duplicate check of `add_to_favorites`. -/
def favCountFor (db : DB) (u : Int) (name : String) : Nat :=
  db.favorite_foods.countP (fun f => f.user_id == u && f.food_name == name)

/-! ## Concrete inputs used by the example-level statements -/

/-- An OpenFoodFacts product with `sodium_100g = 0.4` and no sugar key. -/
def offSoda : OFFProduct :=
  { product_name := some "Soda"
    brands := some "BrandCo"
    code := some "123456789"
    categories := some "Drinks,Fizzy"
    nutriments := some [("sodium_100g", some 0.4), ("fiber_100g", none), ("proteins_100g", none)] }

/-- The canonical food record of the end-to-end tracking example:
10.6 g sugar per 100 g. -/
def cocaCola : FoodData :=
  { name := "Coca Cola", description := "", sugar_g := 10.6, calories := 42,
    carbs_g := 10.6, protein_g := 0, fat_g := 0, fiber_g := 0, sodium_mg := 4,
    data_type := "OpenFoodFacts", fdc_id := "5449000000996" }

/-- A USDA nutrient entry matched by identifier 1008 (energy). -/
def usdaEnergyEntry : USDANutrient :=
  { nutrientId := some 1008, nutrientName := some "Energy", value := some 52 }

/-- A USDA nutrient entry with the sugar identifier 2000 and value 12.5. -/
def usdaIdEntry : USDANutrient :=
  { nutrientId := some 2000, nutrientName := some "Total Sugars", value := some 12.5 }

/-- A USDA nutrient entry with an unmapped identifier, a sugar-matching name
and value 8.0. -/
def usdaNameEntry : USDANutrient :=
  { nutrientId := some 9999, nutrientName := some "Total Sugars", value := some 8.0 }

/-- Payload whose sugar comes from the id-2000 entry. -/
def usdaExampleIdMatch : USDAFood :=
  { description := some "Sample food"
    additionalDescriptions := none
    fdcId := some 1001
    dataType := some "Foundation"
    foodNutrients := some [usdaEnergyEntry, usdaIdEntry] }

/-- Payload without id 2000 whose sugar comes from the name fallback. -/
def usdaExampleNameMatch : USDAFood :=
  { description := some "Sample food"
    additionalDescriptions := none
    fdcId := some 1002
    dataType := some "Foundation"
    foodNutrients := some [usdaEnergyEntry, usdaNameEntry] }

/-- A nutrient entry with the carbohydrate identifier 1005 whose name also
contains "sugar" and "total". -/
def usdaCeEntry : USDANutrient :=
  { nutrientId := some 1005
    nutrientName := some "Carbohydrate, total (incl. total sugars)"
    value := some 30 }

/-- Payload without id 2000 whose only sugar-name-matching entry carries the
mapped identifier 1005. -/
def usdaCounterexample : USDAFood :=
  { description := some "Sweetened cereal"
    additionalDescriptions := none
    fdcId := some 1003
    dataType := some "Foundation"
    foodNutrients := some [usdaCeEntry] }

/-- A store with one tracker row for user 1 on 2024-01-02 and no insights. -/
def c2DB : DB :=
  { emptyDB with
      daily_tracker :=
        [{ id := 1, user_id := 1, food_item_id := 1, food_name := "Cake", portion_g := 100,
           sugar_g := 30, calories := 300, date := "2024-01-02" }] }

/-- A store holding a stale insight row for 2024-01-02 while all tracker rows
live on another date. -/
def c9DB : DB :=
  { emptyDB with
      daily_tracker :=
        [{ id := 1, user_id := 1, food_item_id := 1, food_name := "Cake", portion_g := 100,
           sugar_g := 30, calories := 300, date := "2024-01-03" }]
      sugar_insights :=
        [{ id := 1, user_id := 1, date := "2024-01-02", total_sugar_g := 30,
           total_calories := 300, food_count := 1, exceeded_limit := true }] }

/-- A canonical food record named "Apple". -/
def appleFD : FoodData :=
  { name := "Apple", description := "", sugar_g := 10, calories := 52, carbs_g := 14,
    protein_g := 0, fat_g := 0, fiber_g := 2, sodium_mg := 1,
    data_type := "Foundation", fdc_id := "1102644" }

/-- An existing favorite row for `(user 1, "Apple")`. -/
def appleFavRow : Favorite :=
  { id := 1, user_id := 1, food_item_id := 1, food_name := "Apple", sugar_g := 10,
    calories := 52, food_data := appleFD }

/-- A store that already holds the "Apple" favorite. -/
def c10DB : DB := { emptyDB with favorite_foods := [appleFavRow] }

/-- A canonical food record named "Banana". -/
def bananaFD : FoodData :=
  { name := "Banana", description := "", sugar_g := 12, calories := 89, carbs_g := 23,
    protein_g := 1, fat_g := 0, fiber_g := 3, sodium_mg := 1,
    data_type := "Foundation", fdc_id := "1105314" }

/-- One insight row of user 1 for a given date. -/
def c6Row (k : Nat) (d : String) : Insight :=
  { id := k, user_id := 1, date := d, total_sugar_g := 20, total_calories := 500,
    food_count := 2, exceeded_limit := false }

/-- A store with exactly three days of insight history for user 1. -/
def c6DB : DB :=
  { emptyDB with
      sugar_insights := [c6Row 1 "2024-01-01", c6Row 2 "2024-01-02", c6Row 3 "2024-01-03"] }

/-- An OpenFoodFacts product carrying a negative sugar value. -/
def offNegative : OFFProduct :=
  { product_name := some "Bad Syrup"
    brands := none
    code := some "999"
    categories := none
    nutriments := some [("sugars_100g", some (-1))] }

/-- An OpenFoodFacts product with integer-valued non-negative nutrients. -/
def offIntExample : OFFProduct :=
  { product_name := some "Plain Crackers"
    brands := some "BrandCo"
    code := some "4001"
    categories := some "Snacks,Salty"
    nutriments := some [("sugars_100g", some 2), ("sodium_100g", some 1), ("fat_100g", none)] }

/-- A USDA payload with integer-valued non-negative nutrients. -/
def usdaIntExample : USDAFood :=
  { description := some "Oats"
    additionalDescriptions := none
    fdcId := some 2001
    dataType := some "Foundation"
    foodNutrients := some
      [{ nutrientId := some 2000, nutrientName := some "Total Sugars", value := some 1 },
       { nutrientId := some 1003, nutrientName := some "Protein", value := some 13 }] }

/-! ## Helper lemmas -/

theorem dictGetOr_present (nuts : List (String × Option ℚ)) (k : String) (v : ℚ)
    (h : nuts.lookup k = some (some v)) : dictGetOr nuts k = v := by
  simp [dictGetOr, h]

theorem dictGetOr_absent (nuts : List (String × Option ℚ)) (k : String)
    (h : nuts.lookup k = none ∨ nuts.lookup k = some none) : dictGetOr nuts k = 0 := by
  rcases h with h | h <;> simp [dictGetOr, h]

theorem dictGetOr_nonneg (nuts : List (String × Option ℚ))
    (h : ∀ kv ∈ nuts, 0 ≤ kv.2.getD 0) (k : String) : 0 ≤ dictGetOr nuts k := by
  induction nuts with
  | nil => simp [dictGetOr, List.lookup]
  | cons kv rest ih =>
      obtain ⟨k', v'⟩ := kv
      by_cases hk : k == k'
      · cases v' with
        | none => simp [dictGetOr, List.lookup, hk]
        | some v => simpa [dictGetOr, List.lookup, hk] using h (k', some v) (by simp)
      · have hstep : dictGetOr ((k', v') :: rest) k = dictGetOr rest k := by
          simp [dictGetOr, List.lookup, hk]
        rw [hstep]
        exact ih (fun kv hkv => h kv (by simp [hkv]))

theorem nutrientStep_sugar_id2000 (acc : USDAFoodInfo) (n : USDANutrient)
    (h : n.nutrientId = some 2000) :
    (nutrientStep acc n).sugar_g = n.value.getD 0 := by
  simp [nutrientStep, h]

set_option maxHeartbeats 1000000 in
theorem nutrientStep_sugar_skip (acc : USDAFoodInfo) (n : USDANutrient)
    (h1 : n.nutrientId ≠ some 2000) (h2 : freeSugarNameMatch n = false) :
    (nutrientStep acc n).sugar_g = acc.sugar_g := by
  by_cases hm : isMappedId n.nutrientId = true
  · have hm' := hm
    simp only [isMappedId, decide_eq_true_eq] at hm'
    rcases hm' with h | h | h | h | h | h | h
    · exact absurd h h1
    all_goals simp [nutrientStep, h]
  · rw [Bool.not_eq_true] at hm
    have hs : sugarNameMatch n = false := by
      simpa [freeSugarNameMatch, hm] using h2
    simp only [sugarNameMatch] at hs
    have hmm := hm
    simp only [isMappedId, decide_eq_false_iff_not] at hmm
    push_neg at hmm
    obtain ⟨ha, hb, hc, hd, he, hf, hg⟩ := hmm
    simp only [nutrientStep, ha, hb, hc, hd, he, hf, hg, hs, if_false]
    simp only [Bool.false_eq_true, if_false]
    split_ifs <;> rfl

set_option maxHeartbeats 1000000 in
theorem nutrientStep_sugar_frozen (acc : USDAFoodInfo) (n : USDANutrient)
    (h1 : n.nutrientId ≠ some 2000) (h0 : acc.sugar_g ≠ 0) :
    (nutrientStep acc n).sugar_g = acc.sugar_g := by
  by_cases hm : isMappedId n.nutrientId = true
  · have hm' := hm
    simp only [isMappedId, decide_eq_true_eq] at hm'
    rcases hm' with h | h | h | h | h | h | h
    · exact absurd h h1
    all_goals simp [nutrientStep, h]
  · rw [Bool.not_eq_true] at hm
    have hmm := hm
    simp only [isMappedId, decide_eq_false_iff_not] at hmm
    push_neg at hmm
    obtain ⟨ha, hb, hc, hd, he, hf, hg⟩ := hmm
    simp only [nutrientStep, ha, hb, hc, hd, he, hf, hg, h0, if_false]
    split_ifs <;> rfl

theorem nutrientStep_sugar_set (acc : USDAFoodInfo) (n : USDANutrient)
    (hfree : freeSugarNameMatch n = true) (h0 : acc.sugar_g = 0) :
    (nutrientStep acc n).sugar_g = n.value.getD 0 := by
  have hm : isMappedId n.nutrientId = false := by
    rcases Bool.eq_false_or_eq_true (isMappedId n.nutrientId) with h | h
    · simp [freeSugarNameMatch, h] at hfree
    · exact h
  have hs : sugarNameMatch n = true := by
    simpa [freeSugarNameMatch, hm] using hfree
  simp only [sugarNameMatch] at hs
  have hmm := hm
  simp only [isMappedId, decide_eq_false_iff_not] at hmm
  push_neg at hmm
  obtain ⟨ha, hb, hc, hd, he, hf, hg⟩ := hmm
  simp only [nutrientStep, ha, hb, hc, hd, he, hf, hg, hs, h0, if_false, if_true]

theorem foldl_sugar_skip (l : List USDANutrient) :
    ∀ (acc : USDAFoodInfo),
      (∀ n ∈ l, n.nutrientId ≠ some 2000 ∧ freeSugarNameMatch n = false) →
      (l.foldl nutrientStep acc).sugar_g = acc.sugar_g := by
  induction l with
  | nil => intro acc _; rfl
  | cons n rest ih =>
      intro acc h
      have hn := h n (by simp)
      rw [List.foldl_cons, ih _ (fun m hm => h m (by simp [hm])),
        nutrientStep_sugar_skip acc n hn.1 hn.2]

theorem foldl_sugar_frozen (l : List USDANutrient) :
    ∀ (acc : USDAFoodInfo),
      acc.sugar_g ≠ 0 →
      (∀ n ∈ l, n.nutrientId ≠ some 2000) →
      (l.foldl nutrientStep acc).sugar_g = acc.sugar_g := by
  induction l with
  | nil => intro acc _ _; rfl
  | cons n rest ih =>
      intro acc h0 h
      have hstep := nutrientStep_sugar_frozen acc n (h n (by simp)) h0
      rw [List.foldl_cons, ih _ (by rw [hstep]; exact h0) (fun m hm => h m (by simp [hm])),
        hstep]

set_option maxHeartbeats 1000000 in
theorem nutrientStep_nonneg (acc : USDAFoodInfo) (n : USDANutrient)
    (hv : 0 ≤ n.value.getD 0)
    (h : 0 ≤ acc.sugar_g ∧ 0 ≤ acc.calories ∧ 0 ≤ acc.carbs_g ∧ 0 ≤ acc.protein_g ∧
      0 ≤ acc.fat_g ∧ 0 ≤ acc.fiber_g ∧ 0 ≤ acc.sodium_mg) :
    0 ≤ (nutrientStep acc n).sugar_g ∧ 0 ≤ (nutrientStep acc n).calories ∧
    0 ≤ (nutrientStep acc n).carbs_g ∧ 0 ≤ (nutrientStep acc n).protein_g ∧
    0 ≤ (nutrientStep acc n).fat_g ∧ 0 ≤ (nutrientStep acc n).fiber_g ∧
    0 ≤ (nutrientStep acc n).sodium_mg := by
  obtain ⟨h1, h2, h3, h4, h5, h6, h7⟩ := h
  by_cases hm : isMappedId n.nutrientId = true
  · have hm' := hm
    simp only [isMappedId, decide_eq_true_eq] at hm'
    rcases hm' with hid | hid | hid | hid | hid | hid | hid
    · simp [nutrientStep, hid]
      exact ⟨hv, h2, h3, h4, h5, h6, h7⟩
    · simp [nutrientStep, hid]
      exact ⟨h1, hv, h3, h4, h5, h6, h7⟩
    · simp [nutrientStep, hid]
      exact ⟨h1, h2, hv, h4, h5, h6, h7⟩
    · simp [nutrientStep, hid]
      exact ⟨h1, h2, h3, hv, h5, h6, h7⟩
    · simp [nutrientStep, hid]
      exact ⟨h1, h2, h3, h4, hv, h6, h7⟩
    · simp [nutrientStep, hid]
      exact ⟨h1, h2, h3, h4, h5, hv, h7⟩
    · simp [nutrientStep, hid]
      exact ⟨h1, h2, h3, h4, h5, h6, hv⟩
  · rw [Bool.not_eq_true] at hm
    have hmm := hm
    simp only [isMappedId, decide_eq_false_iff_not] at hmm
    push_neg at hmm
    obtain ⟨ha, hb, hc, hd, he, hf, hg⟩ := hmm
    simp only [nutrientStep, ha, hb, hc, hd, he, hf, hg, if_false]
    split_ifs <;>
      refine ⟨?_, ?_, ?_, ?_, ?_, ?_, ?_⟩ <;>
      first
        | exact hv
        | exact h1
        | exact h2
        | exact h3
        | exact h4
        | exact h5
        | exact h6
        | exact h7

theorem foldl_nutrientStep_nonneg (l : List USDANutrient) :
    ∀ (acc : USDAFoodInfo),
      (∀ n ∈ l, 0 ≤ n.value.getD 0) →
      (0 ≤ acc.sugar_g ∧ 0 ≤ acc.calories ∧ 0 ≤ acc.carbs_g ∧ 0 ≤ acc.protein_g ∧
        0 ≤ acc.fat_g ∧ 0 ≤ acc.fiber_g ∧ 0 ≤ acc.sodium_mg) →
      (0 ≤ (l.foldl nutrientStep acc).sugar_g ∧ 0 ≤ (l.foldl nutrientStep acc).calories ∧
        0 ≤ (l.foldl nutrientStep acc).carbs_g ∧ 0 ≤ (l.foldl nutrientStep acc).protein_g ∧
        0 ≤ (l.foldl nutrientStep acc).fat_g ∧ 0 ≤ (l.foldl nutrientStep acc).fiber_g ∧
        0 ≤ (l.foldl nutrientStep acc).sodium_mg) := by
  induction l with
  | nil => intro acc _ hacc; exact hacc
  | cons n rest ih =>
      intro acc hl hacc
      rw [List.foldl_cons]
      exact ih _ (fun m hm => hl m (by simp [hm]))
        (nutrientStep_nonneg acc n (hl n (by simp)) hacc)

theorem save_daily_insight_eq (date : String) (user_id : Int) (db : DB) :
    save_daily_insight date user_id db =
      if trackerEntriesFor db user_id date = [] then (false, db)
      else
        match db.sugar_insights.find? (insightKey user_id date) with
        | some _ =>
            (true,
             { db with
                 sugar_insights :=
                   replaceFirst (insightKey user_id date) (insightUpdateFor db user_id date)
                     db.sugar_insights })
        | none =>
            (true,
             { db with
                 sugar_insights := db.sugar_insights ++ [newInsightRow db user_id date]
                 next_insight_id := db.next_insight_id + 1 }) := rfl

theorem replaceFirst_append_left (p : α → Bool) (f : α → α) (l₁ l₂ : List α)
    (h : ∀ x ∈ l₁, ¬ p x = true) :
    replaceFirst p f (l₁ ++ l₂) = l₁ ++ replaceFirst p f l₂ := by
  induction l₁ with
  | nil => rfl
  | cons x xs ih =>
      have hx : p x = false := by simpa using h x (by simp)
      simp only [List.cons_append, replaceFirst, hx, Bool.false_eq_true, if_false,
        List.append_eq]
      rw [ih (fun y hy => h y (by simp [hy]))]

theorem replaceFirst_cons_pos (p : α → Bool) (f : α → α) (x : α) (xs : List α)
    (h : p x = true) : replaceFirst p f (x :: xs) = f x :: xs := by
  simp [replaceFirst, h]

theorem find?_replaceFirst (p : α → Bool) (f : α → α)
    (hp : ∀ x, p x = true → p (f x) = true) :
    ∀ l : List α, List.find? p (replaceFirst p f l) = (List.find? p l).map f := by
  intro l
  induction l with
  | nil => rfl
  | cons x xs ih =>
      rcases hx : p x with _ | _
      · simp only [replaceFirst, hx, if_false, Bool.false_eq_true]
        rw [List.find?_cons_of_neg _ (by simp [hx]), List.find?_cons_of_neg _ (by simp [hx]),
          ih]
      · rw [replaceFirst_cons_pos p f x xs hx,
          List.find?_cons_of_pos _ (hp x hx), List.find?_cons_of_pos _ hx]
        rfl

theorem replaceFirst_idem (p : α → Bool) (f : α → α)
    (hp : ∀ x, p x = true → p (f x) = true)
    (hf : ∀ x, p x = true → f (f x) = f x) :
    ∀ l : List α, replaceFirst p f (replaceFirst p f l) = replaceFirst p f l := by
  intro l
  induction l with
  | nil => rfl
  | cons x xs ih =>
      rcases hx : p x with _ | _
      · simp only [replaceFirst, hx, if_false, Bool.false_eq_true, ih]
      · rw [replaceFirst_cons_pos p f x xs hx, replaceFirst_cons_pos p f (f x) xs (hp x hx),
          hf x hx]

theorem countP_replaceFirst (p q : α → Bool) (f : α → α)
    (hq : ∀ x, q (f x) = q x) :
    ∀ l : List α, List.countP q (replaceFirst p f l) = List.countP q l := by
  intro l
  induction l with
  | nil => rfl
  | cons x xs ih =>
      rcases hx : p x with _ | _
      · simp only [replaceFirst, hx, if_false, Bool.false_eq_true, List.countP_cons, ih]
      · rw [replaceFirst_cons_pos p f x xs hx]
        simp [List.countP_cons, hq x]

theorem trackerEntriesFor_update2 (db : DB) (s : List Insight) (k : Nat) (u : Int)
    (d : String) :
    trackerEntriesFor { db with sugar_insights := s, next_insight_id := k } u d
      = trackerEntriesFor db u d := rfl

theorem trackerEntriesFor_update1 (db : DB) (s : List Insight) (u : Int) (d : String) :
    trackerEntriesFor { db with sugar_insights := s } u d = trackerEntriesFor db u d := rfl

theorem insightUpdateFor_update2 (db : DB) (s : List Insight) (k : Nat) (u : Int)
    (d : String) :
    insightUpdateFor { db with sugar_insights := s, next_insight_id := k } u d
      = insightUpdateFor db u d := rfl

theorem insightUpdateFor_update1 (db : DB) (s : List Insight) (u : Int) (d : String) :
    insightUpdateFor { db with sugar_insights := s } u d = insightUpdateFor db u d := rfl

theorem insightUpdateFor_newInsightRow (db : DB) (u : Int) (d : String) :
    insightUpdateFor db u d (newInsightRow db u d) = newInsightRow db u d := rfl

theorem insightUpdateFor_idem (db : DB) (u : Int) (d : String) (r : Insight) :
    insightUpdateFor db u d (insightUpdateFor db u d r) = insightUpdateFor db u d r := rfl

theorem insightKey_insightUpdateFor (u' : Int) (d' : String) (db : DB) (u : Int) (d : String)
    (r : Insight) : insightKey u' d' (insightUpdateFor db u d r) = insightKey u' d' r := rfl

theorem save_food_item_frame (fd : FoodData) (db : DB) :
    (save_food_item fd db).2.favorite_foods = db.favorite_foods
    ∧ (save_food_item fd db).2.next_favorite_id = db.next_favorite_id := by
  unfold save_food_item
  rcases hf : db.food_items.find?
      (fun fi => fi.name == fd.name && fi.external_id == fd.fdc_id) with _ | x <;> simp [hf]

/-! ## Claims -/

/-- Claim C1, counterexample to the original statement: in the payload
`usdaCounterexample` no entry has identifier 2000 and the only entry whose
lowercased name contains both "sugar" and "total" has value 30, yet the
normalizer leaves `sugar_g` at 0 (the entry carries the mapped carbohydrate
identifier 1005 and is consumed by the identifier branch), so `sugarG` is not
set from the first name-matching entry as the claim requires. -/
theorem extract_nutrition_sugar_fallback_ce :
    (∀ n ∈ (usdaCounterexample.foodNutrients.getD []), n.nutrientId ≠ some 2000)
  ∧ (∃ n ∈ (usdaCounterexample.foodNutrients.getD []),
       sugarNameMatch n = true ∧ n.value.getD 0 = 30)
  ∧ (extract_nutrition_data usdaCounterexample).sugar_g = 0
  ∧ (extract_nutrition_data usdaCounterexample).carbs_g = 30 := by
  refine ⟨by decide, ⟨usdaCeEntry, by decide, by decide, by norm_num [usdaCeEntry]⟩, ?_, ?_⟩
  · norm_num +decide [extract_nutrition_data, usdaCounterexample, usdaCeEntry, nutrientStep]
  · norm_num +decide [extract_nutrition_data, usdaCounterexample, usdaCeEntry, nutrientStep]

/-- Claim C1, amended: the sugar field of a normalized Provider-A payload is
set by the identifier-2000 entry — if an id-2000 entry has nonzero value and
no id-2000 entry follows it, `sugar_g` equals its value; when no entry has
identifier 2000, `sugar_g` is set by the first entry whose identifier is none
of the seven mapped identifiers, whose lowercased name contains both "sugar"
and "total", and whose value is nonzero (a name match is applied only while
the field still holds its default 0).  In particular the id-2000 payload with
value 12.5 yields 12.5, and the id-less "Total Sugars" payload with value 8.0
yields 8.0. -/
theorem extract_nutrition_sugar_mapping :
    (∀ (fd : USDAFood) (l₁ l₂ : List USDANutrient) (e : USDANutrient),
        fd.foodNutrients = some (l₁ ++ e :: l₂) →
        e.nutrientId = some 2000 →
        e.value.getD 0 ≠ 0 →
        (∀ n ∈ l₂, n.nutrientId ≠ some 2000) →
        (extract_nutrition_data fd).sugar_g = e.value.getD 0)
  ∧ (∀ (fd : USDAFood) (l₁ l₂ : List USDANutrient) (e : USDANutrient),
        fd.foodNutrients = some (l₁ ++ e :: l₂) →
        (∀ n ∈ l₁ ++ e :: l₂, n.nutrientId ≠ some 2000) →
        (∀ n ∈ l₁, freeSugarNameMatch n = false) →
        freeSugarNameMatch e = true →
        e.value.getD 0 ≠ 0 →
        (extract_nutrition_data fd).sugar_g = e.value.getD 0)
  ∧ (extract_nutrition_data usdaExampleIdMatch).sugar_g = 12.5
  ∧ (extract_nutrition_data usdaExampleNameMatch).sugar_g = 8.0 := by
  refine ⟨?_, ?_, ?_, ?_⟩
  · intro fd l₁ l₂ e hfn hid hval hafter
    simp only [extract_nutrition_data, hfn, Option.getD_some, List.foldl_append,
      List.foldl_cons]
    rw [foldl_sugar_frozen l₂ _ (by rw [nutrientStep_sugar_id2000 _ e hid]; exact hval)
        hafter,
      nutrientStep_sugar_id2000 _ e hid]
  · intro fd l₁ l₂ e hfn hno2000 hbefore hfree hval
    have h0 : (List.foldl nutrientStep
        { name := fd.description.getD "Unknown Food"
          description := fd.additionalDescriptions.getD ""
          fdc_id := fd.fdcId
          data_type := fd.dataType.getD ""
          sugar_g := 0, calories := 0, carbs_g := 0, protein_g := 0
          fat_g := 0, fiber_g := 0, sodium_mg := 0 } l₁).sugar_g = 0 := by
      rw [foldl_sugar_skip l₁ _
        (fun m hm => ⟨hno2000 m (by simp [hm]), hbefore m hm⟩)]
    simp only [extract_nutrition_data, hfn, Option.getD_some, List.foldl_append,
      List.foldl_cons]
    rw [foldl_sugar_frozen l₂ _
        (by rw [nutrientStep_sugar_set _ e hfree h0]; exact hval)
        (fun m hm => hno2000 m (by simp [hm])),
      nutrientStep_sugar_set _ e hfree h0]
  · norm_num +decide [extract_nutrition_data, usdaExampleIdMatch, usdaEnergyEntry,
      usdaIdEntry, nutrientStep]
  · norm_num +decide [extract_nutrition_data, usdaExampleNameMatch, usdaEnergyEntry,
      usdaNameEntry, nutrientStep]

/-- Claim C1, witness: both general clauses of the amended mapping theorem
instantiated at the two example payloads. -/
theorem extract_nutrition_sugar_mapping_witness :
    (extract_nutrition_data usdaExampleIdMatch).sugar_g = usdaIdEntry.value.getD 0
  ∧ (extract_nutrition_data usdaExampleNameMatch).sugar_g = usdaNameEntry.value.getD 0 :=
  ⟨extract_nutrition_sugar_mapping.1 usdaExampleIdMatch [usdaEnergyEntry] [] usdaIdEntry
      rfl rfl (by norm_num [usdaIdEntry]) (by simp),
   extract_nutrition_sugar_mapping.2.1 usdaExampleNameMatch [usdaEnergyEntry] [] usdaNameEntry
      rfl (by decide) (by decide) (by decide) (by norm_num [usdaNameEntry])⟩

/-- Claim C2: `save_daily_insight` is idempotent for a fixed non-empty set of
tracker rows — running it twice in a row yields exactly the store produced by
the first run — and it upserts: one recomputation preserves the invariant of
at most one insight row per `(userId, date)` key, updating an existing row in
place rather than inserting a second one. -/
theorem save_daily_insight_idempotent_upsert :
    (∀ (db : DB) (u : Int) (d : String),
        trackerEntriesFor db u d ≠ [] →
        (save_daily_insight d u (save_daily_insight d u db).2).2
          = (save_daily_insight d u db).2)
  ∧ (∀ (db : DB) (u : Int) (d : String) (u' : Int) (d' : String),
        db.sugar_insights.countP (insightKey u' d') ≤ 1 →
        (save_daily_insight d u db).2.sugar_insights.countP (insightKey u' d') ≤ 1) := by
  constructor
  · intro db u d hne
    rcases hfind : db.sugar_insights.find? (insightKey u d) with _ | x <;>
      rw [save_daily_insight_eq d u db, if_neg hne] <;> simp only [hfind]
    · have hnone := List.find?_eq_none.mp hfind
      have prow : insightKey u d (newInsightRow db u d) = true := by
        simp [insightKey, newInsightRow]
      rw [save_daily_insight_eq]
      simp only [trackerEntriesFor_update2, insightUpdateFor_update2]
      rw [if_neg hne]
      simp only [List.find?_append, hfind, Option.none_or,
        List.find?_cons_of_pos _ prow]
      simp only [replaceFirst_append_left _ _ _ _ hnone,
        replaceFirst_cons_pos _ _ _ _ prow, insightUpdateFor_newInsightRow]
    · have hkey : ∀ y, insightKey u d y = true →
          insightKey u d (insightUpdateFor db u d y) = true := by
        intro y hy; rw [insightKey_insightUpdateFor]; exact hy
      rw [save_daily_insight_eq]
      simp only [trackerEntriesFor_update1, insightUpdateFor_update1]
      rw [if_neg hne]
      simp only [find?_replaceFirst _ _ hkey, hfind, Option.map_some']
      simp only [replaceFirst_idem _ _ hkey
        (fun y _ => insightUpdateFor_idem db u d y)]
  · intro db u d u' d' hcount
    rw [save_daily_insight_eq]
    by_cases hemp : trackerEntriesFor db u d = []
    · rw [if_pos hemp]; exact hcount
    · rw [if_neg hemp]
      rcases hfind : db.sugar_insights.find? (insightKey u d) with _ | x <;>
        simp only [hfind]
      · rcases hrow : insightKey u' d' (newInsightRow db u d) with _ | _
        · simp [List.countP_append, List.countP_cons, hrow, hcount]
        · have hud : u = u' ∧ d = d' := by
            simpa [insightKey, newInsightRow] using hrow
          obtain ⟨rfl, rfl⟩ := hud
          have hzero : db.sugar_insights.countP (insightKey u d) = 0 :=
            List.countP_eq_zero.mpr
              (fun a ha => by simpa using List.find?_eq_none.mp hfind a ha)
          simp [List.countP_append, List.countP_cons, hrow, hzero]
      · simp only [countP_replaceFirst _ _ _
          (fun y => insightKey_insightUpdateFor u' d' db u d y)]
        exact hcount

/-- Claim C2, witness: both clauses instantiated on a store holding one
tracker row for `(user 1, 2024-01-02)`. -/
theorem save_daily_insight_idempotent_upsert_witness :
    (save_daily_insight "2024-01-02" 1 (save_daily_insight "2024-01-02" 1 c2DB).2).2
      = (save_daily_insight "2024-01-02" 1 c2DB).2
  ∧ (save_daily_insight "2024-01-02" 1 c2DB).2.sugar_insights.countP
      (insightKey 1 "2024-01-02") ≤ 1 :=
  ⟨save_daily_insight_idempotent_upsert.1 c2DB 1 "2024-01-02" (by decide),
   save_daily_insight_idempotent_upsert.2 c2DB 1 "2024-01-02" 1 "2024-01-02" (by decide)⟩

/-- Claim C3: tracking "Coca Cola" (10.6 g sugar per 100 g) at a 250 g
portion stores a tracker entry with the creation-time scaled snapshot
`sugarG = 10.6 / 100 * 250 = 26.5`, and recomputing that day's insight with
this as the only entry stores `totalSugarG = 26.5` with
`exceededLimit = true` since `26.5 > 25.0`. -/
theorem track_coca_cola_end_to_end :
    ((add_to_daily_tracker cocaCola 250 1 "2024-01-15" emptyDB).2.daily_tracker.map
        TrackerEntry.sugar_g = [26.5])
  ∧ ((save_daily_insight "2024-01-15" 1
        (add_to_daily_tracker cocaCola 250 1 "2024-01-15" emptyDB).2).2.sugar_insights.map
        (fun i => (i.total_sugar_g, i.exceeded_limit)) = [(26.5, true)]) := by
  constructor
  · norm_num +decide [add_to_daily_tracker, save_food_item, emptyDB, cocaCola]
  · norm_num +decide [add_to_daily_tracker, save_food_item, save_daily_insight,
      trackerEntriesFor, insightKey, emptyDB, cocaCola, beq_eq_decide]

/-- Claim C4: Provider-B normalization multiplies the `sodium_100g` value by
1000 (grams to milligrams) and yields 0 when the key is absent or null; the
same absent-or-null-to-0 rule holds for the other direct lookups such as
`sugars_100g` and `energy-kcal_100g`.  The payload with `sodium_100g = 0.4`
yields `sodium_mg = 400`. -/
theorem extract_openfoodfacts_defaults :
    (∀ (p : OFFProduct) (nuts : List (String × Option ℚ)) (v : ℚ),
        p.nutriments = some nuts →
        nuts.lookup "sodium_100g" = some (some v) →
        (extract_openfoodfacts_data p).sodium_mg = 1000 * v)
  ∧ (∀ (p : OFFProduct) (nuts : List (String × Option ℚ)),
        p.nutriments = some nuts →
        (nuts.lookup "sodium_100g" = none ∨ nuts.lookup "sodium_100g" = some none) →
        (extract_openfoodfacts_data p).sodium_mg = 0)
  ∧ (∀ (p : OFFProduct) (nuts : List (String × Option ℚ)) (v : ℚ),
        p.nutriments = some nuts →
        nuts.lookup "sugars_100g" = some (some v) →
        (extract_openfoodfacts_data p).sugar_g = v)
  ∧ (∀ (p : OFFProduct) (nuts : List (String × Option ℚ)),
        p.nutriments = some nuts →
        (nuts.lookup "sugars_100g" = none ∨ nuts.lookup "sugars_100g" = some none) →
        (extract_openfoodfacts_data p).sugar_g = 0)
  ∧ (∀ (p : OFFProduct) (nuts : List (String × Option ℚ)) (v : ℚ),
        p.nutriments = some nuts →
        nuts.lookup "energy-kcal_100g" = some (some v) →
        (extract_openfoodfacts_data p).calories = v)
  ∧ (∀ (p : OFFProduct) (nuts : List (String × Option ℚ)),
        p.nutriments = some nuts →
        (nuts.lookup "energy-kcal_100g" = none ∨
          nuts.lookup "energy-kcal_100g" = some none) →
        (extract_openfoodfacts_data p).calories = 0)
  ∧ (extract_openfoodfacts_data offSoda).sodium_mg = 400 := by
  refine ⟨?_, ?_, ?_, ?_, ?_, ?_, ?_⟩
  · intro p nuts v hp h
    simp [extract_openfoodfacts_data, hp, dictGetOr_present nuts _ v h]
    ring
  · intro p nuts hp h
    simp [extract_openfoodfacts_data, hp, dictGetOr_absent nuts _ h]
  · intro p nuts v hp h
    simp [extract_openfoodfacts_data, hp, dictGetOr_present nuts _ v h]
  · intro p nuts hp h
    simp [extract_openfoodfacts_data, hp, dictGetOr_absent nuts _ h]
  · intro p nuts v hp h
    simp [extract_openfoodfacts_data, hp, dictGetOr_present nuts _ v h]
  · intro p nuts hp h
    simp [extract_openfoodfacts_data, hp, dictGetOr_absent nuts _ h]
  · norm_num +decide [extract_openfoodfacts_data, offSoda, dictGetOr, List.lookup,
      beq_eq_decide]

/-- Claim C4, witness: the present-key clause for sodium and the absent-key
clause for sugars instantiated on the `sodium_100g = 0.4` payload. -/
theorem extract_openfoodfacts_defaults_witness :
    (extract_openfoodfacts_data offSoda).sodium_mg = 1000 * (0.4 : ℚ)
  ∧ (extract_openfoodfacts_data offSoda).sugar_g = 0 :=
  ⟨extract_openfoodfacts_defaults.1 offSoda _ 0.4 rfl rfl,
   extract_openfoodfacts_defaults.2.2.2.1 offSoda _ rfl (Or.inl rfl)⟩

/-- Claim C5: adding a favorite for a `(userId, foodName)` pair that already
has one reports `false` and leaves the favorites table unchanged; adding the
same favorite twice starting from a store without it leaves exactly one
favorite row for that name, the second call reporting `false`. -/
theorem add_to_favorites_duplicate_reports_false :
    (∀ (db : DB) (fd : FoodData) (u : Int),
        favCountFor db u fd.name ≠ 0 →
        (add_to_favorites fd u db).1 = false
        ∧ (add_to_favorites fd u db).2.favorite_foods = db.favorite_foods)
  ∧ (∀ (db : DB) (fd : FoodData) (u : Int),
        favCountFor db u fd.name = 0 →
        (add_to_favorites fd u (add_to_favorites fd u db).2).1 = false
        ∧ favCountFor (add_to_favorites fd u (add_to_favorites fd u db).2).2 u fd.name
            = 1) := by
  constructor
  · intro db fd u hcount
    rcases hfind : db.favorite_foods.find?
        (fun g => g.user_id == u && g.food_name == fd.name) with _ | x
    · exfalso
      exact hcount (List.countP_eq_zero.mpr
        (fun a ha => by simpa using List.find?_eq_none.mp hfind a ha))
    · constructor <;> simp [add_to_favorites, hfind]
  · intro db fd u hcount
    have hfind : db.favorite_foods.find?
        (fun g => g.user_id == u && g.food_name == fd.name) = none := by
      rcases hf : db.favorite_foods.find?
          (fun g => g.user_id == u && g.food_name == fd.name) with _ | x
      · exact hf
      · exfalso
        have hx := List.find?_some hf
        have hmem := List.mem_of_find?_eq_some hf
        exact List.countP_eq_zero.mp hcount x hmem hx
    set db1 := (add_to_favorites fd u db).2 with hdb1
    have hfav1 : db1.favorite_foods
        = db.favorite_foods ++
          [{ id := db.next_favorite_id
             user_id := u
             food_item_id := (save_food_item fd db).1
             food_name := fd.name
             sugar_g := fd.sugar_g
             calories := fd.calories
             food_data := fd }] := by
      rw [hdb1]
      simp [add_to_favorites, hfind, (save_food_item_frame fd db).1,
        (save_food_item_frame fd db).2]
    have hrow : (fun g : Favorite => g.user_id == u && g.food_name == fd.name)
        { id := db.next_favorite_id
          user_id := u
          food_item_id := (save_food_item fd db).1
          food_name := fd.name
          sugar_g := fd.sugar_g
          calories := fd.calories
          food_data := fd } = true := by simp
    have hfind2 : db1.favorite_foods.find?
        (fun g => g.user_id == u && g.food_name == fd.name)
        = some { id := db.next_favorite_id
                 user_id := u
                 food_item_id := (save_food_item fd db).1
                 food_name := fd.name
                 sugar_g := fd.sugar_g
                 calories := fd.calories
                 food_data := fd } := by
      rw [hfav1, List.find?_append, hfind, Option.none_or]
      exact List.find?_cons_of_pos _ hrow
    constructor
    · simp [add_to_favorites, hfind2]
    · have hfav2 : (add_to_favorites fd u db1).2.favorite_foods = db1.favorite_foods := by
        simp [add_to_favorites, hfind2]
      rw [favCountFor, hfav2, hfav1, List.countP_append]
      rw [favCountFor] at hcount
      simp [hcount, List.countP_cons, hrow]

/-- Claim C5, witness: adding the "Banana" favorite twice to the empty store
reports `false` the second time and leaves exactly one favorite row. -/
theorem add_to_favorites_duplicate_reports_false_witness :
    (add_to_favorites bananaFD 1 (add_to_favorites bananaFD 1 emptyDB).2).1 = false
    ∧ favCountFor (add_to_favorites bananaFD 1 (add_to_favorites bananaFD 1 emptyDB).2).2
        1 bananaFD.name = 1 :=
  add_to_favorites_duplicate_reports_false.2 emptyDB bananaFD 1 (by decide)

/-- Claim C6: `get_weekly_insights` returns the stored insight rows of the
user ordered by date descending, at most `n` of them and exactly as many as
exist (no zero-filled backfilling); on the three-day store, asking for 7 rows
returns exactly 3. -/
theorem get_weekly_insights_spec :
    (∀ (db : DB) (u : Int) (n : Nat),
        (get_weekly_insights u n db).length
          = min n (db.sugar_insights.countP (fun i => i.user_id == u))
        ∧ List.Sorted (fun a b : Insight => b.date ≤ a.date) (get_weekly_insights u n db)
        ∧ ∀ i ∈ get_weekly_insights u n db, i ∈ db.sugar_insights ∧ i.user_id = u)
  ∧ (get_weekly_insights 1 7 c6DB).length = 3 := by
  constructor
  · intro db u n
    refine ⟨?_, ?_, ?_⟩
    · simp [get_weekly_insights, List.length_take, List.length_mergeSort,
        List.countP_eq_length_filter]
    · have hs := @List.sorted_mergeSort Insight
        (fun a b : Insight => decide (b.date ≤ a.date))
        (fun a b c hab hbc => by
          simp only [decide_eq_true_eq] at *
          exact le_trans hbc hab)
        (fun a b => by
          rcases le_total a.date b.date with h | h <;> simp [h])
        (db.sugar_insights.filter (fun i => i.user_id == u))
      have htake := List.Pairwise.sublist (List.take_sublist n _) hs
      exact htake.imp (fun h => by simpa using h)
    · intro i hi
      have h1 : i ∈ (db.sugar_insights.filter (fun i => i.user_id == u)).mergeSort
          (fun a b => decide (b.date ≤ a.date)) := List.take_subset _ _ hi
      have h2 := List.mem_mergeSort.mp h1
      have h3 := List.mem_filter.mp h2
      exact ⟨h3.1, by simpa using h3.2⟩
  · simp [get_weekly_insights, List.length_take, List.length_mergeSort,
      List.countP_eq_length_filter]
    decide

/-- Claim C6, witness: the general clause instantiated on the three-day store
for the length equation and for membership of a returned row. -/
theorem get_weekly_insights_spec_witness :
    (get_weekly_insights 1 7 c6DB).length
      = min 7 (c6DB.sugar_insights.countP (fun i => i.user_id == 1))
    ∧ (c6Row 3 "2024-01-03" ∈ c6DB.sugar_insights ∧ (c6Row 3 "2024-01-03").user_id = 1) :=
  ⟨(get_weekly_insights_spec.1 c6DB 1 7).1,
   (get_weekly_insights_spec.1 c6DB 1 7).2.2 (c6Row 3 "2024-01-03") (by
      rw [get_weekly_insights, List.take_of_length_le
        (by rw [List.length_mergeSort]; decide)]
      exact List.mem_mergeSort.mpr (by decide))⟩

/-- Claim C7: the code of `calculate_daily_sugar_percentage` divides by the
limit with no guard — at `daily_limit = 0` it raises `ZeroDivisionError`
instead of reporting a configuration error, while for a nonzero limit it
computes `sugar_content / daily_limit * 100` (10 of 25 gives 40 percent). -/
theorem calculate_daily_sugar_percentage_zero_limit :
    calculate_daily_sugar_percentage 10 0 = Except.error "ZeroDivisionError"
  ∧ calculate_daily_sugar_percentage 10 25 = Except.ok 40 := by
  constructor <;> norm_num [calculate_daily_sugar_percentage]

/-- Claim C8, counterexample to the original statement: the normalizer
accepts the `offNegative` payload (it returns a record for it) and passes its
negative `sugars_100g` value through unchanged, so not every normalized
record has non-negative nutrient fields. -/
theorem normalizer_negative_passthrough_ce :
    (extract_openfoodfacts_data offNegative).sugar_g = -1
    ∧ ¬ (0 ≤ (extract_openfoodfacts_data offNegative).sugar_g) := by
  constructor <;>
    norm_num [extract_openfoodfacts_data, offNegative, dictGetOr, List.lookup]

/-- Claim C8, amended: every record produced by either normalizer has all
seven nutrient fields numerically present — a payload without nutrient data
yields all-zero fields, never a missing value — and the fields are
non-negative whenever every nutrient value present in the source payload is
non-negative (negative source values are passed through, so unconditional
non-negativity does not hold). -/
theorem normalizer_nonneg_amended :
    (∀ (p : OFFProduct),
        (∀ kv ∈ p.nutriments.getD [], 0 ≤ kv.2.getD 0) →
        (0 ≤ (extract_openfoodfacts_data p).sugar_g ∧
          0 ≤ (extract_openfoodfacts_data p).calories ∧
          0 ≤ (extract_openfoodfacts_data p).carbs_g ∧
          0 ≤ (extract_openfoodfacts_data p).protein_g ∧
          0 ≤ (extract_openfoodfacts_data p).fat_g ∧
          0 ≤ (extract_openfoodfacts_data p).fiber_g ∧
          0 ≤ (extract_openfoodfacts_data p).sodium_mg))
  ∧ (∀ (fd : USDAFood),
        (∀ n ∈ fd.foodNutrients.getD [], 0 ≤ n.value.getD 0) →
        (0 ≤ (extract_nutrition_data fd).sugar_g ∧
          0 ≤ (extract_nutrition_data fd).calories ∧
          0 ≤ (extract_nutrition_data fd).carbs_g ∧
          0 ≤ (extract_nutrition_data fd).protein_g ∧
          0 ≤ (extract_nutrition_data fd).fat_g ∧
          0 ≤ (extract_nutrition_data fd).fiber_g ∧
          0 ≤ (extract_nutrition_data fd).sodium_mg))
  ∧ (∀ (p : OFFProduct), p.nutriments = none →
        ((extract_openfoodfacts_data p).sugar_g = 0 ∧
          (extract_openfoodfacts_data p).calories = 0 ∧
          (extract_openfoodfacts_data p).carbs_g = 0 ∧
          (extract_openfoodfacts_data p).protein_g = 0 ∧
          (extract_openfoodfacts_data p).fat_g = 0 ∧
          (extract_openfoodfacts_data p).fiber_g = 0 ∧
          (extract_openfoodfacts_data p).sodium_mg = 0))
  ∧ (∀ (fd : USDAFood), fd.foodNutrients = none →
        ((extract_nutrition_data fd).sugar_g = 0 ∧
          (extract_nutrition_data fd).calories = 0 ∧
          (extract_nutrition_data fd).carbs_g = 0 ∧
          (extract_nutrition_data fd).protein_g = 0 ∧
          (extract_nutrition_data fd).fat_g = 0 ∧
          (extract_nutrition_data fd).fiber_g = 0 ∧
          (extract_nutrition_data fd).sodium_mg = 0)) := by
  refine ⟨?_, ?_, ?_, ?_⟩
  · intro p h
    refine ⟨?_, ?_, ?_, ?_, ?_, ?_, ?_⟩ <;>
      simp only [extract_openfoodfacts_data] <;>
      first
        | exact dictGetOr_nonneg _ h _
        | exact mul_nonneg (dictGetOr_nonneg _ h _) (by norm_num)
  · intro fd h
    exact foldl_nutrientStep_nonneg _ _ h (by norm_num)
  · intro p hp
    simp [extract_openfoodfacts_data, hp, dictGetOr, List.lookup]
  · intro fd hfd
    simp [extract_nutrition_data, hfd]

/-- Claim C8, witness: both non-negativity clauses instantiated on concrete
payloads with non-negative source values. -/
theorem normalizer_nonneg_amended_witness :
    (0 ≤ (extract_openfoodfacts_data offIntExample).sugar_g ∧
      0 ≤ (extract_openfoodfacts_data offIntExample).calories ∧
      0 ≤ (extract_openfoodfacts_data offIntExample).carbs_g ∧
      0 ≤ (extract_openfoodfacts_data offIntExample).protein_g ∧
      0 ≤ (extract_openfoodfacts_data offIntExample).fat_g ∧
      0 ≤ (extract_openfoodfacts_data offIntExample).fiber_g ∧
      0 ≤ (extract_openfoodfacts_data offIntExample).sodium_mg)
    ∧ (0 ≤ (extract_nutrition_data usdaIntExample).sugar_g ∧
      0 ≤ (extract_nutrition_data usdaIntExample).calories ∧
      0 ≤ (extract_nutrition_data usdaIntExample).carbs_g ∧
      0 ≤ (extract_nutrition_data usdaIntExample).protein_g ∧
      0 ≤ (extract_nutrition_data usdaIntExample).fat_g ∧
      0 ≤ (extract_nutrition_data usdaIntExample).fiber_g ∧
      0 ≤ (extract_nutrition_data usdaIntExample).sodium_mg) :=
  ⟨normalizer_nonneg_amended.1 offIntExample (by decide),
   normalizer_nonneg_amended.2.1 usdaIntExample (by decide)⟩

/-- Claim C9: with zero tracker rows for `(userId, date)`, `save_daily_insight`
returns `False` and leaves the whole store — in particular the
`sugar_insights` table — unchanged; after `clear_daily_tracker` empties a
date, the previously stored insight row persists with its old totals, so the
stored aggregate can be stale relative to the emptied tracker. -/
theorem save_daily_insight_empty_frame :
    (∀ (db : DB) (u : Int) (d : String),
        trackerEntriesFor db u d = [] →
        save_daily_insight d u db = (false, db))
  ∧ (∀ (db : DB) (u : Int) (d : String),
        (clear_daily_tracker d u db).2.sugar_insights = db.sugar_insights
        ∧ save_daily_insight d u (clear_daily_tracker d u db).2
            = (false, (clear_daily_tracker d u db).2)) := by
  have hmain : ∀ (db : DB) (u : Int) (d : String), trackerEntriesFor db u d = [] →
      save_daily_insight d u db = (false, db) := by
    intro db u d h
    rw [save_daily_insight_eq, if_pos h]
  refine ⟨hmain, fun db u d => ⟨rfl, hmain _ u d ?_⟩⟩
  simp [trackerEntriesFor, clear_daily_tracker, List.filter_filter]

/-- Claim C9, witness: the empty-tracker clause instantiated on a store whose
only insight row is the stale 2024-01-02 aggregate. -/
theorem save_daily_insight_empty_frame_witness :
    save_daily_insight "2024-01-02" 1 c9DB = (false, c9DB) :=
  save_daily_insight_empty_frame.1 c9DB 1 "2024-01-02" (by decide)

/-- Claim C10: the duplicate check of `add_to_favorites` precedes every
write — for a `(userId, foodName)` pair that already has a favorite the call
returns `false` with the whole store unchanged, in particular without
creating or modifying any `food_items` row. -/
theorem add_to_favorites_duplicate_precheck :
    ∀ (db : DB) (fd : FoodData) (u : Int),
      (∃ f ∈ db.favorite_foods, f.user_id = u ∧ f.food_name = fd.name) →
      add_to_favorites fd u db = (false, db)
      ∧ (add_to_favorites fd u db).2.food_items = db.food_items := by
  intro db fd u hex
  obtain ⟨f, hf, hu, hn⟩ := hex
  rcases hfind : db.favorite_foods.find?
      (fun g => g.user_id == u && g.food_name == fd.name) with _ | x
  · exfalso
    have hcontra := List.find?_eq_none.mp hfind f hf
    simp [hu, hn] at hcontra
  · have hres : add_to_favorites fd u db = (false, db) := by
      simp [add_to_favorites, hfind]
    exact ⟨hres, by rw [hres]⟩

/-- Claim C10, witness: the duplicate path instantiated on the store that
already holds the "Apple" favorite. -/
theorem add_to_favorites_duplicate_precheck_witness :
    add_to_favorites appleFD 1 c10DB = (false, c10DB)
    ∧ (add_to_favorites appleFD 1 c10DB).2.food_items = c10DB.food_items :=
  add_to_favorites_duplicate_precheck c10DB appleFD 1
    ⟨appleFavRow, by simp [c10DB], rfl, rfl⟩
